import Mathlib

/-!
# Verification of the QPU middleware (middleware_hardware.py, middleware_simulation.py)

Shallow embedding of the hybrid quantum-classical middleware:
the `QPUStatus` state machine, `calibrate`, `execute_circuit`,
the circuit builder `create_recognition_circuit`, the measurement
decoder `_post_process_results`, the orchestration
`process_vision_data`, and the optimization decoder of
`optimize_movement`.

Python exceptions are modelled with `Except`; Python `None` with
`Option`; float values with `ℝ` (circuit rotation parameters) or `ℚ`
(statistics); the external simulator (`cirq.Simulator().run`) is an
oracle parameter, as the spec treats it as an opaque service.
-/

deriving instance DecidableEq for Except

namespace QPUMiddleware

/-- `class QPUStatus(Enum)`: READY, BUSY, ERROR, CALIBRATING. -/
inductive QPUStatus where
  | ready
  | busy
  | error
  | calibrating
deriving DecidableEq, Repr

/-- `@dataclass QPUConfig`: configuration parameters for the QPU hardware.
Float fields are modelled as rationals. -/
structure QPUConfig where
  num_qubits : Nat
  coherence_time_us : ℚ
  gate_fidelity : ℚ
  readout_fidelity : ℚ
deriving DecidableEq, Repr

/-- `QPUConfig()` with the dataclass defaults:
`num_qubits=4, coherence_time_us=100.0, gate_fidelity=0.99, readout_fidelity=0.98`. -/
def default_config : QPUConfig :=
  { num_qubits := 4
    coherence_time_us := 100
    gate_fidelity := 99 / 100
    readout_fidelity := 98 / 100 }

/-- The Python exceptions that can flow through the middleware.
`notReady st` models `RuntimeError(f"QPU not ready. Current status: ...")`
raised by `execute_circuit`; it carries the status the message names.
`keyError` / `indexError` model the built-in exceptions raised by
`raw_results['measurements']['result']` and `measurements[0][0]`.
`runtimeError msg` models other `RuntimeError(msg)` raises.
`hardwareUnavailable` has NO raise site in the code: it is the spec's
`HardwareUnavailableError` vocabulary (spec section 7), included only so
that statements can compare the code's behaviour against it. -/
inductive PyExc where
  | notReady (st : QPUStatus)
  | keyError (key : String)
  | indexError
  | runtimeError (msg : String)
  | hardwareUnavailable
deriving DecidableEq, Repr

/-- `print(...)`: Python `print` does not raise; in the exception monad it
is a pure no-op. -/
def py_print (_s : String) : Except PyExc Unit := .ok ()

/-! ## `calibrate` (middleware_hardware.py lines 47-62) -/

/-- The body of the `try:` block of `calibrate`, in the exception monad.
Each statement of the body is translated in order; the assignments to
`self.status` become let bindings, and the value finally stored in
`self.status` together with the returned `True` is the result. -/
def calibrate_body (test_mode : Bool) : Except PyExc (Bool × QPUStatus) :=
  match py_print "Starting QPU calibration..." with
  | .error e => .error e
  | .ok _ =>
    let _status := QPUStatus.calibrating
    match (if test_mode then py_print "Test Mode: Simulating calibration sequence..." else .ok ()) with
    | .error e => .error e
    | .ok _ =>
      let status := QPUStatus.ready
      match py_print "Calibration completed successfully" with
      | .error e => .error e
      | .ok _ => .ok (true, status)

/-- `calibrate(self) -> bool`, threading the status explicitly: the
`try:` body runs; on success its stored status and return value stand;
`except Exception` stores `ERROR` and returns `False`. The pre-state
`st` is overwritten on every path. Result: (returned bool, new status). -/
def calibrate (test_mode : Bool) (st : QPUStatus) : Bool × QPUStatus :=
  let _ := st
  match calibrate_body test_mode with
  | .ok r => r
  | .error _ => (false, QPUStatus.error)

/-- The `try:` body of `calibrate` with a fault injected at its start:
`fault = some e` models an exception `e` raised inside the body (the
only statements there are `print` calls and assignments); `fault = none`
runs the actual body. -/
def calibrate_body_with_fault (fault : Option PyExc) (test_mode : Bool) :
    Except PyExc (Bool × QPUStatus) :=
  match fault with
  | some e => .error e
  | none => calibrate_body test_mode

/-- `calibrate` under fault injection: the same `try ... except Exception`
structure as `calibrate`, over `calibrate_body_with_fault`. -/
def calibrate_with_fault (fault : Option PyExc) (test_mode : Bool) (st : QPUStatus) :
    Bool × QPUStatus :=
  let _ := st
  match calibrate_body_with_fault fault test_mode with
  | .ok r => r
  | .error _ => (false, QPUStatus.error)

/-! ## Circuits (`create_recognition_circuit`, lines 91-111) -/

/-- One gate operation of a built circuit.  Qubits are the row indices of
the `cirq.GridQubit(i, 0)` list.  `yPow q t` is `cirq.Y(qubits[q]) ** t`
with exponent `t` in the scalar type `α`; `measurement qs key` is
`cirq.measure(*qubits, key=...)`. -/
inductive Gate (α : Type) where
  | H (q : Nat)
  | yPow (q : Nat) (exponent : α)
  | CNOT (control target : Nat)
  | measurement (qubits : List Nat) (key : String)

/-- The data-encoding loop:
`for i, data in enumerate(input_data): if i >= len(self.qubits): break;`
`circuit.append(cirq.Y(self.qubits[i]) ** (data/np.pi))`.
It walks the data and the qubit list in lockstep and stops at the
shorter of the two. -/
def encode_data {α : Type} [Div α] (pi : α) : List α → List Nat → List (Gate α)
  | [], _ => []
  | _, [] => []
  | d :: ds, q :: qs => Gate.yPow q (d / pi) :: encode_data pi ds qs

/-- The entangling loop:
`for i in range(len(self.qubits) - 1): circuit.append(cirq.CNOT(qubits[i], qubits[i+1]))`,
one CNOT per adjacent pair of the qubit list. -/
def entangle_chain {α : Type} : List Nat → List (Gate α)
  | q1 :: q2 :: qs => Gate.CNOT q1 q2 :: entangle_chain (q2 :: qs)
  | _ => []

/-- `create_recognition_circuit(self, input_data)`.  The qubit list is
`[cirq.GridQubit(i, 0) for i in range(num_qubits)]` from `__init__`,
modelled by its indices `List.range num_qubits`.  The circuit is, in
order: one `H` per qubit, the data-encoding rotations, the entangling
chain, and the terminal measurement of all qubits under key `result`.
`pi` is the scalar `np.pi`. -/
def create_recognition_circuit {α : Type} [Div α] (pi : α)
    (input_data : List α) (num_qubits : Nat) : List (Gate α) :=
  let qubits := List.range num_qubits
  (qubits.map Gate.H)
    ++ encode_data pi input_data qubits
    ++ entangle_chain qubits
    ++ [Gate.measurement qubits "result"]

/-- Gate classifier: superposition (Hadamard) gates. -/
def is_superposition {α : Type} : Gate α → Bool
  | .H _ => true
  | _ => false

/-- Gate classifier: single-qubit rotation gates. -/
def is_rotation {α : Type} : Gate α → Bool
  | .yPow _ _ => true
  | _ => false

/-- Gate classifier: two-qubit entangling gates. -/
def is_entangling {α : Type} : Gate α → Bool
  | .CNOT _ _ => true
  | _ => false

/-- Gate classifier: measurement operations. -/
def is_measurement {α : Type} : Gate α → Bool
  | .measurement _ _ => true
  | _ => false

/-! ## `execute_circuit` (lines 64-81) -/

/-- `result.measurements`: a dict from measurement key to the per-shot
bit table (each row one shot, each entry one measured qubit's bit). -/
abbrev MeasDict := List (String × List (List Nat))

/-- The `{'measurements': result.measurements}` dict returned by a
successful `execute_circuit`. -/
structure RawResults where
  measurements : MeasDict
deriving DecidableEq, Repr

/-- `execute_circuit(self, circuit) -> Optional[Dict]`.
`engine` is the external `cirq.Simulator().run(circuit, repetitions=100)`
oracle: it either produces `result.measurements` or raises.
If the status is not READY, `execute_circuit` raises
`RuntimeError(f"QPU not ready. Current status: ...")` (modelled
`.notReady st`) and the status is untouched.  Otherwise the engine runs:
on success the wrapped measurements are returned and the status is
untouched; on an engine exception the status is set to ERROR and `None`
is returned (a value, not an exception).
Result: (raised exception or returned `Optional[Dict]`, new status). -/
def execute_circuit {α : Type} (circuit : List (Gate α)) (st : QPUStatus)
    (engine : List (Gate α) → Except PyExc MeasDict) :
    Except PyExc (Option RawResults) × QPUStatus :=
  if st ≠ QPUStatus.ready then
    (.error (.notReady st), st)
  else
    match engine circuit with
    | .ok m => (.ok (some ⟨m⟩), st)
    | .error _ => (.ok none, QPUStatus.error)

/-! ## `_post_process_results` (lines 128-141) -/

/-- `np.mean(measurements)` on a 2D table: the arithmetic mean of ALL
entries of the table (every qubit of every shot), as an exact rational.
(`np.mean` of an empty array is NaN; in `ℚ` the empty case gives `0/0 = 0`;
`_post_process_results` raises on an empty table before the mean is
ever returned, so the NaN case never escapes.) -/
def np_mean (rows : List (List Nat)) : ℚ :=
  ((rows.flatten.sum : ℚ)) / ((rows.flatten.length : ℚ))

/-- The decoded `processed_results` dict:
`{'pattern_identified': bool, 'confidence_score': float}`. -/
structure ProcessedResults where
  pattern_identified : Bool
  confidence_score : ℚ
deriving DecidableEq, Repr

/-- `_post_process_results(self, raw_results)`.
`raw_results['measurements']['result']` raises `KeyError` when the key
is absent; `confidence = np.mean(measurements)`;
`bool(measurements[0][0])` raises `IndexError` when the table (or its
first row) is empty; otherwise the result dict is built, with
`pattern_identified` the truthiness of the first shot's qubit-0 bit. -/
def post_process_results (raw_results : RawResults) : Except PyExc ProcessedResults :=
  match List.lookup "result" raw_results.measurements with
  | none => .error (.keyError "result")
  | some measurements =>
    let confidence := np_mean measurements
    match measurements with
    | [] => .error .indexError
    | row0 :: _ =>
      match row0 with
      | [] => .error .indexError
      | b0 :: _ =>
        .ok { pattern_identified := b0 != 0, confidence_score := confidence }

/-- Follows the spec's words (section 4.4), for comparison with the code:
"`confidence_score` = mean of qubit-0 bit values across all shots".
The qubit-0 bit of a shot is the first entry of its row. -/
def spec_qubit0_mean (rows : List (List Nat)) : ℚ :=
  (((rows.map fun row => row.headD 0).sum : ℚ)) / ((rows.length : ℚ))

/-- Decidable bit-table check: every entry of every row is 0 or 1. -/
def all_bits (rows : List (List Nat)) : Bool :=
  rows.all fun row => row.all fun b => decide (b ≤ 1)

/-! ## `process_vision_data` (lines 113-126) -/

/-- `process_vision_data(self, vision_data)`.
`calib_fault` is the fault injection for the `calibrate` call (`none`
for the code as written, whose calibration body cannot raise).
Step 1: if `check_status() != READY`, call `calibrate()` — the returned
bool is DISCARDED by the code, only the status side effect remains.
Step 2: build the circuit (always).  Step 3: execute it; a raised
exception propagates.  If the returned value is `None`, raise
`RuntimeError("Pattern recognition failed")`.  Step 4: decode.
Result: (raised exception or returned decision, final status). -/
def process_vision_data {α : Type} [Div α] (pi : α) (test_mode : Bool)
    (st : QPUStatus) (calib_fault : Option PyExc)
    (engine : List (Gate α) → Except PyExc MeasDict)
    (vision_data : List α) : Except PyExc ProcessedResults × QPUStatus :=
  let st1 := if st ≠ QPUStatus.ready
    then (calibrate_with_fault calib_fault test_mode st).2
    else st
  let circuit := create_recognition_circuit pi vision_data default_config.num_qubits
  match execute_circuit circuit st1 engine with
  | (.error e, st2) => (.error e, st2)
  | (.ok none, st2) => (.error (.runtimeError "Pattern recognition failed"), st2)
  | (.ok (some raw), st2) =>
    match post_process_results raw with
    | .ok decision => (.ok decision, st2)
    | .error e => (.error e, st2)

/-! ## `optimize_movement` (middleware_simulation.py lines 56-75) -/

/-- Python's `max(iterable, key=f)` over the entries of the histogram
dict, with `f = dict.get` reading the count: scan the entries keeping
the current best, replacing it only when a strictly larger count is
seen (so the first entry attaining the maximum wins). -/
def py_max_entry : (Nat × Nat) → List (Nat × Nat) → Nat × Nat
  | best, [] => best
  | best, e :: rest => py_max_entry (if e.2 > best.2 then e else best) rest

/-- The decision logic of `optimize_movement()` as a function of the
simulation histogram (a `Counter` mapping each distinct measured
outcome, as an integer, to its count; modelled as its entry list in
iteration order, keys distinct).  `if simulation_results:` — a non-empty
histogram picks `max(simulation_results, key=simulation_results.get)`
and hands it to `robot.move_decision` (the returned `some k`); an empty
histogram takes the `else:` branch, which only prints
"No simulation results to optimize movement." and falls through —
no exception is raised (the returned `none`). -/
def optimize_movement (simulation_results : List (Nat × Nat)) :
    Except PyExc (Option Nat) :=
  match simulation_results with
  | [] => .ok none
  | e :: rest => .ok (some (py_max_entry e rest).1)

/-! ## Concrete oracles used by witnesses and counterexamples -/

/-- A concrete engine oracle that always succeeds with an empty dict. -/
def const_engine : List (Gate ℝ) → Except PyExc MeasDict :=
  fun _ => .ok []

/-- A concrete engine oracle that always raises. -/
def failing_engine : List (Gate ℝ) → Except PyExc MeasDict :=
  fun _ => .error .indexError

/-- A concrete engine oracle returning a fixed 1-shot 2-qubit table. -/
def table_engine : List (Gate ℝ) → Except PyExc MeasDict :=
  fun _ => .ok [("result", [[1, 0]])]

/-! ## Theorems -/

/-- Helper: the entry picked by `py_max_entry` is the start entry or one
of the scanned entries, and its count dominates every count seen. -/
theorem py_max_entry_spec (l : List (Nat × Nat)) : ∀ best : Nat × Nat,
    (py_max_entry best l = best ∨ py_max_entry best l ∈ l) ∧
    best.2 ≤ (py_max_entry best l).2 ∧
    ∀ p ∈ l, p.2 ≤ (py_max_entry best l).2 := by
  induction l with
  | nil =>
    intro best
    exact ⟨Or.inl rfl, le_rfl, by simp⟩
  | cons e rest ih =>
    intro best
    simp only [py_max_entry]
    by_cases h : e.2 > best.2
    · rw [if_pos h]
      rcases ih e with ⟨hmem, hle, hall⟩
      refine ⟨?_, le_trans (le_of_lt h) hle, ?_⟩
      · rcases hmem with h1 | h1
        · exact Or.inr (by simp [h1])
        · exact Or.inr (List.mem_cons_of_mem _ h1)
      · intro p hp
        rcases List.mem_cons.mp hp with rfl | hp'
        · exact hle
        · exact hall p hp'
    · rw [if_neg h]
      rcases ih best with ⟨hmem, hle, hall⟩
      push_neg at h
      refine ⟨?_, hle, ?_⟩
      · rcases hmem with h1 | h1
        · exact Or.inl h1
        · exact Or.inr (List.mem_cons_of_mem _ h1)
      · intro p hp
        rcases List.mem_cons.mp hp with rfl | hp'
        · exact le_trans h hle
        · exact hall p hp'

/-- Helper: a list of bits (each entry at most 1) sums to its number of
ones. -/
theorem sum_eq_count_one (l : List Nat) (h : ∀ b ∈ l, b ≤ 1) :
    l.sum = l.count 1 := by
  induction l with
  | nil => rfl
  | cons b bs ih =>
    have hb : b ≤ 1 := h b (List.mem_cons_self _ _)
    have hbs := ih fun x hx => h x (List.mem_cons_of_mem _ hx)
    rcases Nat.le_one_iff_eq_zero_or_eq_one.mp hb with rfl | rfl
    · simp [List.count_cons, hbs]
    · simp [List.count_cons, hbs]
      omega

/-- Claim C7 (confirmed): the circuit built for `qubit_count = 4` and
`feature_vector = [0.5, 0.3, 0.8, 0.1]` has exactly 4 superposition
(Hadamard) gates, exactly the 4 rotation gates `Y ** (value/π)` on
qubits 0..3, exactly the 3 entangling CNOTs between adjacent pairs, and
exactly one measurement operation, which is terminal and spans all 4
qubits under the single key `result`. -/
theorem claim_c7_concrete_circuit :
    (create_recognition_circuit Real.pi [0.5, 0.3, 0.8, 0.1] 4).countP is_superposition = 4 ∧
    (create_recognition_circuit Real.pi [0.5, 0.3, 0.8, 0.1] 4).filter is_rotation =
      [Gate.yPow 0 ((0.5 : ℝ) / Real.pi), Gate.yPow 1 ((0.3 : ℝ) / Real.pi),
       Gate.yPow 2 ((0.8 : ℝ) / Real.pi), Gate.yPow 3 ((0.1 : ℝ) / Real.pi)] ∧
    (create_recognition_circuit Real.pi [0.5, 0.3, 0.8, 0.1] 4).countP is_entangling = 3 ∧
    (create_recognition_circuit Real.pi [0.5, 0.3, 0.8, 0.1] 4).filter is_entangling =
      [Gate.CNOT 0 1, Gate.CNOT 1 2, Gate.CNOT 2 3] ∧
    (create_recognition_circuit Real.pi [0.5, 0.3, 0.8, 0.1] 4).countP is_measurement = 1 ∧
    (create_recognition_circuit Real.pi [0.5, 0.3, 0.8, 0.1] 4).filter is_measurement =
      [Gate.measurement [0, 1, 2, 3] "result"] ∧
    (create_recognition_circuit Real.pi [0.5, 0.3, 0.8, 0.1] 4).getLast? =
      some (Gate.measurement [0, 1, 2, 3] "result") := by
  exact ⟨rfl, rfl, rfl, rfl, rfl, rfl, rfl⟩

/-- Helper: the data-encoding loop only reads the first
`len(qubits)` entries of the feature vector. -/
theorem encode_data_take {α : Type} [Div α] (pi : α) :
    ∀ (qs : List Nat) (v : List α),
      encode_data pi v qs = encode_data pi (v.take qs.length) qs := by
  intro qs
  induction qs with
  | nil => intro v; cases v <;> rfl
  | cons q qs ih =>
    intro v
    cases v with
    | nil => rfl
    | cons d ds => simp [encode_data, List.take_succ_cons, ih ds]

/-- Claim C6 (confirmed): for every qubit count `n` and feature vector
longer than `n`, the built circuit is exactly the circuit built from the
first `n` features — entries at index `>= n` are dropped, never wrapped
or turned into an error. -/
theorem claim_c6_feature_truncation (v : List ℝ) (n : Nat) (hlen : n < v.length) :
    create_recognition_circuit Real.pi v n =
      create_recognition_circuit Real.pi (v.take n) n := by
  show List.map Gate.H (List.range n)
        ++ encode_data Real.pi v (List.range n)
        ++ entangle_chain (List.range n)
        ++ [Gate.measurement (List.range n) "result"] =
      List.map Gate.H (List.range n)
        ++ encode_data Real.pi (v.take n) (List.range n)
        ++ entangle_chain (List.range n)
        ++ [Gate.measurement (List.range n) "result"]
  rw [encode_data_take Real.pi (List.range n) v,
    encode_data_take Real.pi (List.range n) (v.take n)]
  simp [List.take_take]

/-- Witness for claim C6: a 5-entry feature vector on 4 qubits. -/
theorem claim_c6_witness :
    4 < List.length ([1, 2, 3, 4, 5] : List ℝ) ∧
    create_recognition_circuit Real.pi ([1, 2, 3, 4, 5] : List ℝ) 4 =
      create_recognition_circuit Real.pi (([1, 2, 3, 4, 5] : List ℝ).take 4) 4 :=
  ⟨by simp, claim_c6_feature_truncation [1, 2, 3, 4, 5] 4 (by simp)⟩

/-- Counterexample for claim C1: on the 1-shot table `[[1, 0]]` the code
returns `confidence_score = 1/2` — `np.mean` runs over ALL entries of
the table — while the claim's qubit-0 mean is `1`. -/
theorem claim_c1_counterexample :
    post_process_results ⟨[("result", [[1, 0]])]⟩ =
      .ok { pattern_identified := true, confidence_score := 1 / 2 } ∧
    spec_qubit0_mean [[1, 0]] = 1 ∧
    ((1 : ℚ) / 2) ≠ (1 : ℚ) := by
  refine ⟨?_, ?_, by norm_num⟩
  · simp [post_process_results, List.lookup, np_mean]
  · simp [spec_qubit0_mean]

/-- Claim C1 as amended (theorem): for every non-empty bit table under
the `result` key, the decoder returns `pattern_identified` equal to the
truthiness of the first shot's qubit-0 bit and `confidence_score` equal
to the fraction of 1-bits among ALL measured bits (every qubit of every
shot), not only the qubit-0 channel. -/
theorem claim_c1_amended_decoder (b0 : Nat) (r0 : List Nat)
    (rest : List (List Nat))
    (hbits : all_bits ((b0 :: r0) :: rest) = true) :
    post_process_results ⟨[("result", (b0 :: r0) :: rest)]⟩ =
      .ok { pattern_identified := b0 != 0,
            confidence_score :=
              ((((b0 :: r0) :: rest).flatten.count 1 : ℚ)) /
                ((((b0 :: r0) :: rest).flatten.length : ℚ)) } := by
  have hball : ∀ b ∈ ((b0 :: r0) :: rest).flatten, b ≤ 1 := by
    intro b hb
    simp only [all_bits, List.all_eq_true, decide_eq_true_eq] at hbits
    rcases List.mem_flatten.mp hb with ⟨row, hrow, hbrow⟩
    exact hbits row hrow b hbrow
  have hsum := sum_eq_count_one _ hball
  have hmean : np_mean ((b0 :: r0) :: rest) =
      ((((b0 :: r0) :: rest).flatten.count 1 : ℚ)) /
        ((((b0 :: r0) :: rest).flatten.length : ℚ)) := by
    rw [np_mean, hsum]
  have hstep : post_process_results ⟨[("result", (b0 :: r0) :: rest)]⟩ =
      .ok { pattern_identified := b0 != 0,
            confidence_score := np_mean ((b0 :: r0) :: rest) } := rfl
  rw [hstep, hmean]

/-- Witness for claim C1: a 100-shot single-qubit table with 63 ones
gives `confidence_score = 63/100` and `pattern_identified = True`. -/
theorem claim_c1_witness :
    all_bits (([1] : List Nat) ::
        (List.replicate 62 [1] ++ List.replicate 37 ([0] : List Nat))) = true ∧
    post_process_results
        ⟨[("result", ([1] : List Nat) ::
          (List.replicate 62 [1] ++ List.replicate 37 [0]))]⟩ =
      .ok { pattern_identified := (1 : Nat) != 0,
            confidence_score :=
              ((((([1] : List Nat) ::
                  (List.replicate 62 [1] ++ List.replicate 37 [0])).flatten.count 1 : ℚ)) /
                (((([1] : List Nat) ::
                  (List.replicate 62 [1] ++ List.replicate 37 [0])).flatten.length : ℚ))) } ∧
    post_process_results
        ⟨[("result", List.replicate 63 ([1] : List Nat) ++ List.replicate 37 [0])]⟩ =
      .ok { pattern_identified := true, confidence_score := 63 / 100 } := by
  refine ⟨by decide, claim_c1_amended_decoder 1 []
      (List.replicate 62 [1] ++ List.replicate 37 [0]) (by decide), ?_⟩
  have hstep : post_process_results
      ⟨[("result", List.replicate 63 ([1] : List Nat) ++ List.replicate 37 [0])]⟩ =
      .ok { pattern_identified := true,
            confidence_score :=
              np_mean (List.replicate 63 [1] ++ List.replicate 37 [0]) } := rfl
  have hs : (List.replicate 63 ([1] : List Nat) ++
      List.replicate 37 [0]).flatten.sum = 63 := by decide
  have hl : (List.replicate 63 ([1] : List Nat) ++
      List.replicate 37 [0]).flatten.length = 100 := by decide
  rw [hstep, np_mean, hs, hl]
  norm_num

/-- Counterexample for claim C3: with the status forced to BUSY and the
calibration call failing, `process_vision_data` does not abort with a
`HardwareUnavailableError`; it builds the circuit, submits it, and the
invocation fails with the not-ready `RuntimeError` raised by
`execute_circuit` (naming status ERROR). -/
theorem claim_c3_counterexample :
    process_vision_data Real.pi true QPUStatus.busy (some PyExc.indexError)
        table_engine [(0.5 : ℝ), 0.3, 0.8, 0.1] =
      (.error (.notReady QPUStatus.error), QPUStatus.error) ∧
    PyExc.notReady QPUStatus.error ≠ PyExc.hardwareUnavailable :=
  ⟨rfl, fun h => PyExc.noConfusion h⟩

/-- Claim C3 as amended (theorem): when the initial status check is not
READY, `calibrate()` is called but its boolean result is discarded; the
circuit is built and submitted regardless, and a failed calibration
surfaces only as the not-ready `RuntimeError` raised by
`execute_circuit` on the ERROR status — never as a
`HardwareUnavailableError`, which has no raise site in the code. -/
theorem claim_c3_amended_calibration_ignored (test_mode : Bool)
    (st : QPUStatus) (e : PyExc)
    (engine : List (Gate ℝ) → Except PyExc MeasDict) (v : List ℝ)
    (hst : st ≠ QPUStatus.ready) :
    process_vision_data Real.pi test_mode st (some e) engine v =
      (.error (.notReady QPUStatus.error), QPUStatus.error) ∧
    PyExc.notReady QPUStatus.error ≠ PyExc.hardwareUnavailable := by
  refine ⟨?_, fun h => PyExc.noConfusion h⟩
  simp [process_vision_data, hst, calibrate_with_fault,
    calibrate_body_with_fault, execute_circuit]

/-- Witness for claim C3 from status BUSY with a failing calibration. -/
theorem claim_c3_witness :
    QPUStatus.busy ≠ QPUStatus.ready ∧
    (process_vision_data Real.pi true QPUStatus.busy (some (PyExc.keyError "k"))
        const_engine [] =
      (.error (.notReady QPUStatus.error), QPUStatus.error) ∧
    PyExc.notReady QPUStatus.error ≠ PyExc.hardwareUnavailable) :=
  ⟨by decide, claim_c3_amended_calibration_ignored true QPUStatus.busy
    (PyExc.keyError "k") const_engine [] (by decide)⟩

/-- Claim C2 (confirmed): for every circuit and every status other than
READY, `execute_circuit` raises the not-ready `RuntimeError` naming the
current status, and the status is unchanged. -/
theorem claim_c2_readiness_gate (circuit : List (Gate ℝ)) (st : QPUStatus)
    (engine : List (Gate ℝ) → Except PyExc MeasDict)
    (hst : st ≠ QPUStatus.ready) :
    execute_circuit circuit st engine = (.error (.notReady st), st) := by
  simp [execute_circuit, hst]

/-- Witness for claim C2 at status BUSY and the empty circuit. -/
theorem claim_c2_witness :
    QPUStatus.busy ≠ QPUStatus.ready ∧
    execute_circuit ([] : List (Gate ℝ)) QPUStatus.busy const_engine =
      (.error (.notReady QPUStatus.busy), QPUStatus.busy) :=
  ⟨by decide, claim_c2_readiness_gate [] QPUStatus.busy const_engine (by decide)⟩

/-- Claim C4 (confirmed): executing from READY with a faulting engine
sets the status to ERROR and returns `None` (a returned value); the
returned-`None` channel is distinct from the raised-exception channel. -/
theorem claim_c4_execution_fault (circuit : List (Gate ℝ))
    (engine : List (Gate ℝ) → Except PyExc MeasDict) (e : PyExc)
    (heng : engine circuit = .error e) :
    execute_circuit circuit QPUStatus.ready engine = (.ok none, QPUStatus.error) ∧
    ∀ e' : PyExc, (Except.ok none : Except PyExc (Option RawResults)) ≠ .error e' := by
  refine ⟨?_, fun e' h => Except.noConfusion h⟩
  simp [execute_circuit, heng]

/-- Witness for claim C4 with an always-raising engine. -/
theorem claim_c4_witness :
    failing_engine [] = .error PyExc.indexError ∧
    (execute_circuit ([] : List (Gate ℝ)) QPUStatus.ready failing_engine =
        (.ok none, QPUStatus.error) ∧
      ∀ e' : PyExc, (Except.ok none : Except PyExc (Option RawResults)) ≠ .error e') :=
  ⟨rfl, claim_c4_execution_fault [] failing_engine PyExc.indexError rfl⟩

/-- Claim C5 (confirmed): from every pre-state, a `calibrate` run that
returns success ends READY, a run that returns failure ends ERROR, no
run ends CALIBRATING, and a fault-free run from READY still runs the
sequence and ends `(True, READY)`. -/
theorem claim_c5_calibration_convergence (fault : Option PyExc)
    (test_mode : Bool) (st : QPUStatus) :
    ((calibrate_with_fault fault test_mode st).1 = true →
      (calibrate_with_fault fault test_mode st).2 = QPUStatus.ready) ∧
    ((calibrate_with_fault fault test_mode st).1 = false →
      (calibrate_with_fault fault test_mode st).2 = QPUStatus.error) ∧
    (calibrate_with_fault fault test_mode st).2 ≠ QPUStatus.calibrating ∧
    calibrate_with_fault none test_mode QPUStatus.ready = (true, QPUStatus.ready) := by
  rcases fault with _ | e <;> cases test_mode <;>
    simp [calibrate_with_fault, calibrate_body_with_fault, calibrate_body, py_print]

/-- Witness for claim C5 at a faulting run from BUSY. -/
theorem claim_c5_witness :
    ((calibrate_with_fault (some PyExc.indexError) true QPUStatus.busy).1 = true →
      (calibrate_with_fault (some PyExc.indexError) true QPUStatus.busy).2 = QPUStatus.ready) ∧
    ((calibrate_with_fault (some PyExc.indexError) true QPUStatus.busy).1 = false →
      (calibrate_with_fault (some PyExc.indexError) true QPUStatus.busy).2 = QPUStatus.error) ∧
    (calibrate_with_fault (some PyExc.indexError) true QPUStatus.busy).2 ≠ QPUStatus.calibrating ∧
    calibrate_with_fault none true QPUStatus.ready = (true, QPUStatus.ready) :=
  claim_c5_calibration_convergence (some PyExc.indexError) true QPUStatus.busy

/-- Claim C10 (confirmed): in this implementation `calibrate` always
returns `True` with final status READY, from every pre-state; its
`except` branch is unreachable because the `try` body (prints and
assignments only) cannot raise. -/
theorem claim_c10_calibrate_always_succeeds (test_mode : Bool) (st : QPUStatus) :
    calibrate test_mode st = (true, QPUStatus.ready) ∧
    ∀ e : PyExc, calibrate_body test_mode ≠ .error e := by
  cases test_mode <;> exact ⟨rfl, fun e h => Except.noConfusion h⟩

/-- Witness for claim C10 from pre-state BUSY. -/
theorem claim_c10_witness :
    calibrate true QPUStatus.busy = (true, QPUStatus.ready) ∧
    ∀ e : PyExc, calibrate_body true ≠ .error e :=
  claim_c10_calibrate_always_succeeds true QPUStatus.busy

/-- Claim C9 (confirmed): on a non-empty histogram the optimization
decoder selects an outcome present in the histogram whose count is at
least every count in the histogram. -/
theorem claim_c9_histogram_selection (h : List (Nat × Nat)) (hne : h ≠ []) :
    ∃ k c, optimize_movement h = .ok (some k) ∧ (k, c) ∈ h ∧
      ∀ p ∈ h, p.2 ≤ c := by
  match h, hne with
  | e :: rest, _ =>
    rcases py_max_entry_spec rest e with ⟨hmem, hle, hall⟩
    have hmem' : py_max_entry e rest ∈ e :: rest := by
      rcases hmem with h1 | h1
      · rw [h1]; exact List.mem_cons_self _ _
      · exact List.mem_cons_of_mem _ h1
    refine ⟨(py_max_entry e rest).1, (py_max_entry e rest).2, rfl,
      by simpa using hmem', ?_⟩
    intro p hp
    rcases List.mem_cons.mp hp with rfl | hp'
    · exact hle
    · exact hall p hp'

/-- Witness for claim C9 on the spec's histogram `{A:40, B:55, C:5}`
(outcomes numbered 0, 1, 2): the decoder picks outcome 1 (`B`). -/
theorem claim_c9_witness :
    ([(0, 40), (1, 55), (2, 5)] : List (Nat × Nat)) ≠ [] ∧
    optimize_movement [(0, 40), (1, 55), (2, 5)] = .ok (some 1) ∧
    (∃ k c, optimize_movement [(0, 40), (1, 55), (2, 5)] = .ok (some k) ∧
      (k, c) ∈ ([(0, 40), (1, 55), (2, 5)] : List (Nat × Nat)) ∧
      ∀ p ∈ ([(0, 40), (1, 55), (2, 5)] : List (Nat × Nat)), p.2 ≤ c) :=
  ⟨by simp, rfl, claim_c9_histogram_selection _ (by simp)⟩

/-- Counterexample for claim C8: the optimization decoder does NOT fail
on an empty histogram — `optimize_movement` on the empty histogram
returns normally (prints a message and makes no movement decision)
instead of raising a `DecodeError`. -/
theorem claim_c8_counterexample :
    optimize_movement [] = .ok none ∧
    optimize_movement [] ≠ .error PyExc.indexError :=
  ⟨rfl, fun h => Except.noConfusion h⟩

/-- Claim C8 as amended (theorem): the pattern-recognition decoder does
fail on a missing result label (`KeyError`) and on an empty measurement
table (`IndexError`), but the optimization decoder returns normally on
an empty histogram. -/
theorem claim_c8_amended_empty_input (r1 r2 : RawResults)
    (h1 : List.lookup "result" r1.measurements = none)
    (h2 : List.lookup "result" r2.measurements = some []) :
    post_process_results r1 = .error (.keyError "result") ∧
    post_process_results r2 = .error .indexError ∧
    optimize_movement [] = .ok none := by
  refine ⟨?_, ?_, rfl⟩
  · simp [post_process_results, h1]
  · simp [post_process_results, h2]

/-- Witness for claim C8 on concrete raw results. -/
theorem claim_c8_witness :
    List.lookup "result" (RawResults.mk []).measurements = none ∧
    List.lookup "result" (RawResults.mk [("result", [])]).measurements = some [] ∧
    (post_process_results ⟨[]⟩ = .error (.keyError "result") ∧
      post_process_results ⟨[("result", [])]⟩ = .error .indexError ∧
      optimize_movement [] = .ok none) :=
  ⟨rfl, by simp [List.lookup],
    claim_c8_amended_empty_input ⟨[]⟩ ⟨[("result", [])]⟩ rfl (by simp [List.lookup])⟩

end QPUMiddleware
